import Mathlib

/-!
Shallow embedding of the application-lifecycle slice of the back-trabajatec
backend: the three handlers of src/backend/routes/applications.js
(POST /applications, PUT /applications/:id/status, PUT /applications/:id/withdraw),
the createNotification helpers of the notification service, and the two send
functions of src/services/emailService.js together with the configuration
check of src/server.js (validateEmailConfig).

Machine timestamps (created_at / updated_at) are not modelled; user types and
application statuses are kept as strings, exactly as the JavaScript compares
them. Storage reads are modelled over an explicit in-memory store; SQL
`find first row` becomes List.find?. The outcomes of the notification insert
and of the mail transport are supplied by oracles in the environment, so that
theorems can quantify over every possible notification-writer and mailer
outcome.
-/

/-- Row of `technician_profiles` (the columns the slice reads). -/
structure TechnicianProfile where
  user_id : Nat
  cv_uploaded : Bool
  cv_file : Option String
deriving DecidableEq, Repr

/-- Row of `projects` (the columns the slice reads). -/
structure Project where
  id : Nat
  title : String
  company_id : Nat
  status : String
deriving DecidableEq, Repr

/-- Row of `users` (the columns the slice reads). -/
structure User where
  id : Nat
  full_name : String
  email : String
deriving DecidableEq, Repr

/-- Row of `company_profiles` (the columns the slice reads). -/
structure CompanyProfile where
  user_id : Nat
  company_name : String
deriving DecidableEq, Repr

/-- Row of `project_applications`. -/
structure Application where
  id : Nat
  project_id : Nat
  technician_id : Nat
  cover_letter : String
  proposed_rate : Option Int
  availability_start : Option String
  availability_end : Option String
  status : String
deriving DecidableEq, Repr

/-- Row of `notifications` (is_read defaults to false on insert and is not
touched by this slice, so it is omitted). -/
structure Notification where
  id : Nat
  user_id : Nat
  ntype : String
  title : String
  message : String
  related_id : Option Nat
deriving DecidableEq, Repr

/-- The relational store as seen by the three handlers, plus the
auto-increment counters that produce `insertId` values. -/
structure Store where
  technician_profiles : List TechnicianProfile
  projects : List Project
  users : List User
  company_profiles : List CompanyProfile
  applications : List Application
  notifications : List Notification
  nextApplicationId : Nat
  nextNotificationId : Nat
deriving DecidableEq, Repr

/-- A contact of the mail transport (transporter.sendMail): recipient,
subject line and whether an attachment was included. Recorded only when the
transport is actually called. -/
structure EmailAttempt where
  recipient : String
  subject : String
  hasAttachment : Bool
deriving DecidableEq, Repr

/-- Value returned by both emailService send functions: either
`(success := true, messageId)` or a caught/short-circuited failure with an
error string. The functions never throw. -/
structure MailSendResult where
  success : Bool
  error : Option String
deriving DecidableEq, Repr

/-- Request environment: whether mail credentials were present at startup
(`isEmailConfigured` in emailService.js) and oracles giving the outcome of
the n-th notification INSERT and of the n-th transport send of the request. -/
structure Env where
  emailConfigured : Bool
  notifOk : Nat → Bool
  mailOk : Nat → Bool

/-- JS falsiness of an environment variable: missing or the empty string
(`!process.env[field]` in validateEmailConfig). -/
def envFalsy : Option String → Bool
  | none => true
  | some s => s == ""

/-- validateEmailConfig of src/server.js: requires EMAIL_USER and EMAIL_PASS
to be present (truthy). -/
def validateEmailConfig (emailUser emailPass : Option String) : Bool :=
  !(envFalsy emailUser || envFalsy emailPass)

/-- Query `SELECT cv_uploaded FROM technician_profiles WHERE user_id = ?`, first row. -/
def findProfile (st : Store) (uid : Nat) : Option TechnicianProfile :=
  st.technician_profiles.find? (fun p => p.user_id == uid)

/-- The CV check of the POST handler:
`technicianProfile.length === 0 || !technicianProfile[0].cv_uploaded` is the
failure condition, so this is true iff a profile row exists with
cv_uploaded = true. -/
def cvUploadedOk (st : Store) (uid : Nat) : Bool :=
  match findProfile st uid with
  | none => false
  | some p => p.cv_uploaded

/-- Query `SELECT * FROM projects WHERE id = ? AND status = "open"`, first row. -/
def findOpenProject (st : Store) (pid : Nat) : Option Project :=
  st.projects.find? (fun p => p.id == pid && p.status == "open")

/-- Query `SELECT id FROM project_applications WHERE project_id = ? AND technician_id = ?`
— the duplicate check is `existingApplication.length > 0`. -/
def hasExistingApplication (st : Store) (pid uid : Nat) : Bool :=
  st.applications.any (fun a => a.project_id == pid && a.technician_id == uid)

/-- The post-insert read
`SELECT p.title, p.company_id, cp.company_name FROM projects p JOIN
company_profiles cp ON p.company_id = cp.user_id WHERE p.id = ?`:
an inner join, so it yields a row only when both the project and its
company profile exist. -/
def findProjectInfo (st : Store) (pid : Nat) : Option (Project × CompanyProfile) :=
  match st.projects.find? (fun p => p.id == pid) with
  | none => none
  | some p =>
    match st.company_profiles.find? (fun c => c.user_id == p.company_id) with
    | none => none
    | some c => some (p, c)

/-- The post-insert read
`SELECT u.full_name, u.email, tp.cv_file FROM users u LEFT JOIN
technician_profiles tp ON u.id = tp.user_id WHERE u.id = ?`: a left join,
so the user row is required but cv_file may be null. -/
def findTechnicianInfo (st : Store) (uid : Nat) : Option (User × Option String) :=
  match st.users.find? (fun u => u.id == uid) with
  | none => none
  | some u =>
    some (u, match findProfile st uid with
             | none => none
             | some p => p.cv_file)

/-- createNotification of the notification service: a single INSERT into
`notifications`, with any storage error caught inside the function (it
returns a success flag instead of raising). `ok` is the storage outcome for
this insert; on failure nothing is written. -/
def createNotification (ok : Bool) (st : Store) (userId : Nat)
    (ntype title message : String) (relatedId : Option Nat) : Store :=
  if ok then
    { st with
      notifications := (st.notifications ++
        [{ id := st.nextNotificationId, user_id := userId, ntype := ntype,
           title := title, message := message, related_id := relatedId }]),
      nextNotificationId := st.nextNotificationId + 1 }
  else st

/-- Title used by createJobApplicationNotification. -/
def jobApplicationNotifTitle : String := "Aplicación Enviada"

/-- Message used by createJobApplicationNotification. -/
def jobApplicationNotifMessage (projectTitle : String) : String :=
  "Tu aplicación para el proyecto \"" ++ projectTitle ++ "\" ha sido enviada exitosamente."

/-- Title used by createNewApplicationNotification. -/
def newApplicationNotifTitle : String := "Nueva Aplicación Recibida"

/-- Message used by createNewApplicationNotification. -/
def newApplicationNotifMessage (projectTitle technicianName : String) : String :=
  "Has recibido una nueva aplicación de " ++ technicianName ++
    " para el proyecto \"" ++ projectTitle ++ "\"."

/-- Title switch of createApplicationStatusNotification (accepted, rejected,
withdrawn, generic default). -/
def statusNotifTitle (status : String) : String :=
  if status == "accepted" then "¡Aplicación Aceptada!"
  else if status == "rejected" then "Aplicación Rechazada"
  else if status == "withdrawn" then "Aplicación Retirada"
  else "Estado de Aplicación Actualizado"

/-- Message switch of createApplicationStatusNotification. -/
def statusNotifMessage (projectTitle status : String) : String :=
  if status == "accepted" then
    "Tu aplicación para el proyecto \"" ++ projectTitle ++ "\" ha sido aceptada. ¡Felicidades!"
  else if status == "rejected" then
    "Tu aplicación para el proyecto \"" ++ projectTitle ++ "\" no ha sido seleccionada en esta ocasión."
  else if status == "withdrawn" then
    "Has retirado tu aplicación para el proyecto \"" ++ projectTitle ++ "\"."
  else
    "El estado de tu aplicación para el proyecto \"" ++ projectTitle ++ "\" ha sido actualizado."

/-- Input of sendJobApplicationEmail (the applicationData object). -/
structure JobApplicationEmailData where
  technicianName : String
  technicianEmail : String
  projectTitle : String
  companyName : String
  coverLetter : String
  proposedRate : Option Int
  cvFilePath : Option String
deriving DecidableEq, Repr

/-- sendJobApplicationEmail of emailService.js. When the mailer is not
configured it returns a failure value without contacting the transport;
otherwise it calls transporter.sendMail once (recorded as an attempt to the
fixed operations mailbox) and catches any transport error, returning it as a
value. `sendOk` is the transport outcome for that attempt. -/
def sendJobApplicationEmail (configured sendOk : Bool)
    (data : JobApplicationEmailData) : MailSendResult × List EmailAttempt :=
  if !configured then
    ({ success := false, error := some "Email no configurado" }, [])
  else
    let attempt : EmailAttempt :=
      { recipient := "hola.trabajatecnico@gmail.com",
        subject := "Nueva Aplicación de Trabajo - " ++ data.projectTitle,
        hasAttachment := data.cvFilePath.isSome }
    if sendOk then
      ({ success := true, error := none }, [attempt])
    else
      ({ success := false, error := some "transport_error" }, [attempt])

/-- sendApplicationConfirmationEmail of emailService.js, same shape: a
configuration short-circuit, then one transport attempt to the technician
with all errors caught and returned as a value. -/
def sendApplicationConfirmationEmail (configured sendOk : Bool)
    (technicianEmail technicianName projectTitle : String) :
    MailSendResult × List EmailAttempt :=
  if !configured then
    ({ success := false, error := some "Email no configurado" }, [])
  else
    let attempt : EmailAttempt :=
      { recipient := technicianEmail,
        subject := "Confirmación de Aplicación - " ++ projectTitle,
        hasAttachment := false }
    if sendOk then
      ({ success := true, error := none }, [attempt])
    else
      ({ success := false, error := some "transport_error" }, [attempt])

/-- Upload root used when building the CV attachment path
(`process.env.UPLOAD_PATH || './uploads'`). -/
def uploadPath : String := "./uploads"

/-- Authenticated request body/params of POST /applications. projectId is
integer-typed and proposedRate float-typed by the express validators, which
the field types subsume; the only remaining content check of the validator
chain is that coverLetter is non-empty. -/
structure SubmitRequest where
  userId : Nat
  userType : String
  projectId : Nat
  coverLetter : String
  proposedRate : Option Int
  availabilityStart : Option String
  availabilityEnd : Option String
deriving DecidableEq, Repr

/-- Outcome of POST /applications, one constructor per response of the
handler: 400 validation, 403 role, 400 cv-required, 404 project, 400
already-applied, 500 caught exception, 201 created with insertId. -/
inductive SubmitOutcome where
  | badRequest
  | forbidden
  | cvRequired
  | projectNotFound
  | alreadyApplied
  | internalError
  | created (applicationId : Nat)
deriving DecidableEq, Repr

/-- HTTP status code of each POST /applications outcome. -/
def SubmitOutcome.httpStatus : SubmitOutcome → Nat
  | .badRequest => 400
  | .forbidden => 403
  | .cvRequired => 400
  | .projectNotFound => 404
  | .alreadyApplied => 400
  | .internalError => 500
  | .created _ => 201

/-- The Application row inserted by the POST handler: status starts as
pending and the id is the store's auto-increment counter (insertId). -/
def newApplicationRow (st : Store) (req : SubmitRequest) : Application :=
  { id := st.nextApplicationId, project_id := req.projectId,
    technician_id := req.userId, cover_letter := req.coverLetter,
    proposed_rate := req.proposedRate,
    availability_start := req.availabilityStart,
    availability_end := req.availabilityEnd, status := "pending" }

/-- Write `INSERT INTO project_applications (...) VALUES (...)`. -/
def insertApplication (st : Store) (req : SubmitRequest) : Store :=
  { st with applications := (st.applications ++ [newApplicationRow st req]),
            nextApplicationId := st.nextApplicationId + 1 }

/-- The POST /applications handler. Returns the outcome, the store after the
call, and the list of mail-transport contacts made during the call. The
checks run in the handler's order: validation, role, CV, open project,
duplicate; then the INSERT; then the two info reads (whose missing rows make
the JS dereference throw, caught as a 500 — after the insert committed);
then two notification inserts and two mail sends, none of which can change
the outcome. -/
def submitApplication (env : Env) (st : Store) (req : SubmitRequest) :
    SubmitOutcome × Store × List EmailAttempt :=
  if req.coverLetter == "" then (.badRequest, st, [])
  else if req.userType != "technician" then (.forbidden, st, [])
  else if !cvUploadedOk st req.userId then (.cvRequired, st, [])
  else
    match findOpenProject st req.projectId with
    | none => (.projectNotFound, st, [])
    | some _ =>
      if hasExistingApplication st req.projectId req.userId then
        (.alreadyApplied, st, [])
      else
        let st1 : Store := insertApplication st req
        match findProjectInfo st1 req.projectId with
        | none => (.internalError, st1, [])
        | some (proj, comp) =>
          match findTechnicianInfo st1 req.userId with
          | none => (.internalError, st1, [])
          | some (user, cvFile) =>
            let st2 := createNotification (env.notifOk 0) st1 req.userId
              "job_application" jobApplicationNotifTitle
              (jobApplicationNotifMessage proj.title) (some req.projectId)
            let st3 := createNotification (env.notifOk 1) st2 proj.company_id
              "new_application" newApplicationNotifTitle
              (newApplicationNotifMessage proj.title user.full_name)
              (some req.projectId)
            let m1 := (sendApplicationConfirmationEmail env.emailConfigured
              (env.mailOk 0) user.email user.full_name proj.title).2
            let m2 := (sendJobApplicationEmail env.emailConfigured (env.mailOk 1)
              { technicianName := user.full_name, technicianEmail := user.email,
                projectTitle := proj.title, companyName := comp.company_name,
                coverLetter := req.coverLetter, proposedRate := req.proposedRate,
                cvFilePath := cvFile.map (fun f => uploadPath ++ "/" ++ f) }).2
            (.created (newApplicationRow st req).id, st3, m1 ++ m2)

/-- Authenticated request of PUT /applications/:id/status. -/
structure StatusRequest where
  userId : Nat
  userType : String
  applicationId : Nat
  status : String
  message : Option String
deriving DecidableEq, Repr

/-- Outcome of PUT /applications/:id/status: 400 validation, 404 not found,
403 forbidden, 200 with the new status. -/
inductive StatusOutcome where
  | badRequest
  | notFound
  | forbidden
  | ok (status : String)
deriving DecidableEq, Repr

/-- HTTP status code of each PUT /applications/:id/status outcome. -/
def StatusOutcome.httpStatus : StatusOutcome → Nat
  | .badRequest => 400
  | .notFound => 404
  | .forbidden => 403
  | .ok _ => 200

/-- The status values accepted by the route's express validator:
`body('status').isIn(['pending', 'accepted', 'rejected', 'withdrawn'])`. -/
def validStatusValues : List String := ["pending", "accepted", "rejected", "withdrawn"]

/-- The existence read of the status handler:
`SELECT pa.*, p.title, p.company_id, ... FROM project_applications pa JOIN
projects p ... JOIN users u ... WHERE pa.id = ?` — inner joins, so the
application, its project and its technician user must all exist. -/
def findStatusJoin (st : Store) (appId : Nat) :
    Option (Application × Project × User) :=
  match st.applications.find? (fun a => a.id == appId) with
  | none => none
  | some a =>
    match st.projects.find? (fun p => p.id == a.project_id) with
    | none => none
    | some p =>
      match st.users.find? (fun u => u.id == a.technician_id) with
      | none => none
      | some u => some (a, p, u)

/-- Write `UPDATE project_applications SET status = ? WHERE id = ?`. -/
def updateApplicationStatus (st : Store) (appId : Nat) (status : String) : Store :=
  { st with applications := (st.applications.map
      (fun a => if a.id == appId then { a with status := status } else a)) }

/-- The PUT /applications/:id/status handler: validator, existence join,
role + ownership check, UPDATE, then one status notification (whose storage
outcome is caught inside createNotification). No mail send occurs. -/
def updateStatus (env : Env) (st : Store) (req : StatusRequest) :
    StatusOutcome × Store × List EmailAttempt :=
  if !(validStatusValues.contains req.status) then (.badRequest, st, [])
  else
    match findStatusJoin st req.applicationId with
    | none => (.notFound, st, [])
    | some (app, proj, _user) =>
      if req.userType != "company" || proj.company_id != req.userId then
        (.forbidden, st, [])
      else
        let st1 := updateApplicationStatus st req.applicationId req.status
        let st2 := createNotification (env.notifOk 0) st1 app.technician_id
          "application_status" (statusNotifTitle req.status)
          (statusNotifMessage proj.title req.status) (some app.project_id)
        (.ok req.status, st2, [])

/-- Authenticated request of PUT /applications/:id/withdraw. -/
structure WithdrawRequest where
  userId : Nat
  userType : String
  applicationId : Nat
deriving DecidableEq, Repr

/-- Outcome of PUT /applications/:id/withdraw: 404 not found/not owner,
403 wrong role, 400 not pending, 200 withdrawn. -/
inductive WithdrawOutcome where
  | notFound
  | forbidden
  | notPending
  | ok
deriving DecidableEq, Repr

/-- HTTP status code of each PUT /applications/:id/withdraw outcome. -/
def WithdrawOutcome.httpStatus : WithdrawOutcome → Nat
  | .notFound => 404
  | .forbidden => 403
  | .notPending => 400
  | .ok => 200

/-- The existence+ownership read of the withdraw handler:
`SELECT pa.*, p.title FROM project_applications pa JOIN projects p ...
WHERE pa.id = ? AND pa.technician_id = ?` — the requester id is part of the
WHERE clause, and the project must exist for the join. -/
def findWithdrawJoin (st : Store) (appId uid : Nat) :
    Option (Application × Project) :=
  match st.applications.find? (fun a => a.id == appId && a.technician_id == uid) with
  | none => none
  | some a =>
    match st.projects.find? (fun p => p.id == a.project_id) with
    | none => none
    | some p => some (a, p)

/-- The PUT /applications/:id/withdraw handler: ownership-filtered existence
read (404), then role check (403), then pending check (400), then UPDATE to
withdrawn and one notification to the technician. No mail send occurs. -/
def withdraw (env : Env) (st : Store) (req : WithdrawRequest) :
    WithdrawOutcome × Store × List EmailAttempt :=
  match findWithdrawJoin st req.applicationId req.userId with
  | none => (.notFound, st, [])
  | some (app, proj) =>
    if req.userType != "technician" then (.forbidden, st, [])
    else if app.status != "pending" then (.notPending, st, [])
    else
      let st1 := updateApplicationStatus st req.applicationId "withdrawn"
      let st2 := createNotification (env.notifOk 0) st1 req.userId
        "application_status" (statusNotifTitle "withdrawn")
        (statusNotifMessage proj.title "withdrawn") (some app.project_id)
      (.ok, st2, [])

/-! ### Concrete stores and requests used by witnesses and counterexamples -/

/-- A small consistent store: one technician (id 5) with an uploaded CV, one
open project (id 1) owned by company 10 with a company profile, no
applications yet. -/
def stA : Store :=
  { technician_profiles := [{ user_id := 5, cv_uploaded := true, cv_file := some "cv5.pdf" }],
    projects := [{ id := 1, title := "Proyecto A", company_id := 10, status := "open" }],
    users := [{ id := 5, full_name := "Tec Uno", email := "t@x.com" },
              { id := 10, full_name := "Emp", email := "e@x.com" }],
    company_profiles := [{ user_id := 10, company_name := "ACME" }],
    applications := [],
    notifications := [],
    nextApplicationId := 100,
    nextNotificationId := 200 }

/-- Environment with no mail credentials and all storage writes succeeding. -/
def envA : Env := { emailConfigured := false, notifOk := fun _ => true, mailOk := fun _ => true }

/-- A well-formed application request by technician 5 for project 1. -/
def reqA : SubmitRequest :=
  { userId := 5, userType := "technician", projectId := 1,
    coverLetter := "Experiencia en HVAC", proposedRate := none,
    availabilityStart := none, availabilityEnd := none }

/-- The pending application of technician 5 on project 1, used by the
status/withdraw stores. -/
def appB : Application :=
  { id := 1, project_id := 1, technician_id := 5, cover_letter := "Experiencia en HVAC",
    proposed_rate := none, availability_start := none, availability_end := none,
    status := "pending" }

/-- stA with the pending application appB already inserted. -/
def stB : Store :=
  { stA with applications := [appB] }

/-- A completely empty store. -/
def stEmpty : Store :=
  { technician_profiles := [], projects := [], users := [], company_profiles := [],
    applications := [], notifications := [], nextApplicationId := 1, nextNotificationId := 1 }

/-! ### Claim theorems -/

/-- Claim C1: submitApplication checks role, CV, open project and duplicate
in that fixed order, each failing check producing its own distinct outcome
(Forbidden, cv-required, NotFound, already-applied), with an earlier failing
check masking all later ones: each later failure is only reached under the
success of every earlier check. -/
theorem submit_precondition_order (env : Env) (st : Store) (req : SubmitRequest)
    (hcl : req.coverLetter ≠ "") :
    (req.userType ≠ "technician" → (submitApplication env st req).1 = .forbidden) ∧
    (req.userType = "technician" → cvUploadedOk st req.userId = false →
      (submitApplication env st req).1 = .cvRequired) ∧
    (req.userType = "technician" → cvUploadedOk st req.userId = true →
      findOpenProject st req.projectId = none →
      (submitApplication env st req).1 = .projectNotFound) ∧
    (∀ p : Project, req.userType = "technician" → cvUploadedOk st req.userId = true →
      findOpenProject st req.projectId = some p →
      hasExistingApplication st req.projectId req.userId = true →
      (submitApplication env st req).1 = .alreadyApplied) := by
  refine ⟨?_, ?_, ?_, ?_⟩
  · intro h; simp [submitApplication, hcl, h]
  · intro h1 h2; simp [submitApplication, hcl, h1, h2]
  · intro h1 h2 h3; simp [submitApplication, hcl, h1, h2, h3]
  · intro p h1 h2 h3 h4; simp [submitApplication, hcl, h1, h2, h3, h4]

/-- Witness for C1 at concrete inputs: a company caller is rejected with
Forbidden, and a technician without CV gets the cv-required failure. -/
theorem submit_precondition_order_witness :
    (submitApplication envA stA { reqA with userType := "company" }).1 = .forbidden ∧
    (submitApplication envA { stA with technician_profiles := [] } reqA).1 = .cvRequired :=
  ⟨(submit_precondition_order envA stA { reqA with userType := "company" }
      (by decide)).1 (by decide),
   (submit_precondition_order envA { stA with technician_profiles := [] } reqA
      (by decide)).2.1 (by decide) (by decide)⟩

/-- Claim C3: whenever submitApplication fails on a precondition (wrong
role, missing CV, no open project, duplicate application), the call returns
that failure with the store unchanged — no Application row, no Notification
row — and with no mail transport contact. -/
theorem submit_failure_no_writes (env : Env) (st : Store) (req : SubmitRequest)
    (hcl : req.coverLetter ≠ "") :
    (req.userType ≠ "technician" → submitApplication env st req = (.forbidden, st, [])) ∧
    (cvUploadedOk st req.userId = false →
      submitApplication env st req = (.forbidden, st, []) ∨
      submitApplication env st req = (.cvRequired, st, [])) ∧
    (findOpenProject st req.projectId = none →
      submitApplication env st req = (.forbidden, st, []) ∨
      submitApplication env st req = (.cvRequired, st, []) ∨
      submitApplication env st req = (.projectNotFound, st, [])) ∧
    (hasExistingApplication st req.projectId req.userId = true →
      submitApplication env st req = (.forbidden, st, []) ∨
      submitApplication env st req = (.cvRequired, st, []) ∨
      submitApplication env st req = (.projectNotFound, st, []) ∨
      submitApplication env st req = (.alreadyApplied, st, [])) := by
  refine ⟨?_, ?_, ?_, ?_⟩
  · intro h; simp [submitApplication, hcl, h]
  · intro h
    by_cases hrole : req.userType = "technician"
    · right; simp [submitApplication, hcl, hrole, h]
    · left; simp [submitApplication, hcl, hrole]
  · intro h
    by_cases hrole : req.userType = "technician"
    · by_cases hcv : cvUploadedOk st req.userId
      · right; right; simp [submitApplication, hcl, hrole, hcv, h]
      · right; left; simp [submitApplication, hcl, hrole, hcv]
    · left; simp [submitApplication, hcl, hrole]
  · intro h
    by_cases hrole : req.userType = "technician"
    · by_cases hcv : cvUploadedOk st req.userId
      · rcases hp : findOpenProject st req.projectId with _ | p
      -- no open project: the project check fails first and masks the duplicate
        · right; right; left; simp [submitApplication, hcl, hrole, hcv, hp]
        · right; right; right; simp [submitApplication, hcl, hrole, hcv, hp, h]
      · right; left; simp [submitApplication, hcl, hrole, hcv]
    · left; simp [submitApplication, hcl, hrole]

/-- Witness for C3: the company caller of the C1 witness leaves the store
untouched and sends nothing. -/
theorem submit_failure_no_writes_witness :
    submitApplication envA stA { reqA with userType := "company" } = (.forbidden, stA, []) :=
  (submit_failure_no_writes envA stA { reqA with userType := "company" }
    (by decide)).1 (by decide)

/-- Each confirmation-email call contacts the transport at most once. -/
theorem sendApplicationConfirmationEmail_le_one (c ok : Bool) (e n t : String) :
    (sendApplicationConfirmationEmail c ok e n t).2.length ≤ 1 := by
  cases c <;> cases ok <;> simp [sendApplicationConfirmationEmail]

/-- Each operations-mailbox call contacts the transport at most once. -/
theorem sendJobApplicationEmail_le_one (c ok : Bool) (d : JobApplicationEmailData) :
    (sendJobApplicationEmail c ok d).2.length ≤ 1 := by
  cases ok <;> simp [sendJobApplicationEmail] <;> cases c <;> simp

/-- An unconfigured mailer contacts the transport not at all (confirmation). -/
theorem sendApplicationConfirmationEmail_unconfigured (ok : Bool) (e n t : String) :
    (sendApplicationConfirmationEmail false ok e n t).2 = [] := by
  simp [sendApplicationConfirmationEmail]

/-- An unconfigured mailer contacts the transport not at all (operations notice). -/
theorem sendJobApplicationEmail_unconfigured (ok : Bool) (d : JobApplicationEmailData) :
    (sendJobApplicationEmail false ok d).2 = [] := by
  simp [sendJobApplicationEmail]

/-- Claim C2: on a successful submission (all preconditions hold, the
post-insert joins find their rows, and both notification inserts succeed),
exactly two Notification rows are appended — the first addressed to the
submitting technician, the second to the project's owning company — at most
two mail-transport contacts are made, the outcome is 201-created with the
new application id, and an unconfigured mailer sends nothing while the
outcome is unchanged. -/
theorem submit_success_effects (env : Env) (st : Store) (req : SubmitRequest)
    (hn0 : env.notifOk 0 = true) (hn1 : env.notifOk 1 = true)
    (hcl : req.coverLetter ≠ "") (hrole : req.userType = "technician")
    (hcv : cvUploadedOk st req.userId = true)
    (p : Project) (hproj : findOpenProject st req.projectId = some p)
    (hdup : hasExistingApplication st req.projectId req.userId = false)
    (pr : Project) (hpr : st.projects.find? (fun q => q.id == req.projectId) = some pr)
    (cp : CompanyProfile)
    (hcp : st.company_profiles.find? (fun c => c.user_id == pr.company_id) = some cp)
    (u : User) (hu : st.users.find? (fun v => v.id == req.userId) = some u) :
    (submitApplication env st req).1 = .created st.nextApplicationId ∧
    (∃ n1 n2 : Notification,
      (submitApplication env st req).2.1.notifications = st.notifications ++ [n1, n2] ∧
      n1.user_id = req.userId ∧ n2.user_id = pr.company_id) ∧
    (submitApplication env st req).2.2.length ≤ 2 ∧
    (env.emailConfigured = false → (submitApplication env st req).2.2 = []) := by
  refine ⟨?_, ?_, ?_, ?_⟩
  · simp [submitApplication, insertApplication, newApplicationRow, hcl, hrole,
      hcv, hproj, hdup, findProjectInfo, findTechnicianInfo, hpr, hcp, hu]
  · refine ⟨Notification.mk st.nextNotificationId req.userId "job_application"
        jobApplicationNotifTitle (jobApplicationNotifMessage pr.title)
        (some req.projectId),
      Notification.mk (st.nextNotificationId + 1) pr.company_id "new_application"
        newApplicationNotifTitle (newApplicationNotifMessage pr.title u.full_name)
        (some req.projectId), ?_, rfl, rfl⟩
    simp [submitApplication, insertApplication, newApplicationRow, hcl, hrole,
      hcv, hproj, hdup, findProjectInfo, findTechnicianInfo, hpr, hcp, hu,
      createNotification, hn0, hn1]
  · simp [submitApplication, insertApplication, newApplicationRow, hcl, hrole,
      hcv, hproj, hdup, findProjectInfo, findTechnicianInfo, hpr, hcp, hu]
    exact Nat.add_le_add (sendApplicationConfirmationEmail_le_one _ _ _ _ _)
      (sendJobApplicationEmail_le_one _ _ _)
  · intro hcfg
    simp [submitApplication, insertApplication, newApplicationRow, hcl, hrole,
      hcv, hproj, hdup, findProjectInfo, findTechnicianInfo, hpr, hcp, hu, hcfg,
      sendApplicationConfirmationEmail_unconfigured, sendJobApplicationEmail_unconfigured]

/-- Witness for C2: technician 5 applying to open project 1 in stA with an
unconfigured mailer gets 201 with id 100, two notification rows and no
transport contact. -/
theorem submit_success_effects_witness :
    (submitApplication envA stA reqA).1 = .created 100 ∧
    (∃ n1 n2 : Notification,
      (submitApplication envA stA reqA).2.1.notifications = stA.notifications ++ [n1, n2] ∧
      n1.user_id = reqA.userId ∧ n2.user_id = 10) ∧
    (submitApplication envA stA reqA).2.2 = [] := by
  have h := submit_success_effects envA stA reqA (by decide) (by decide) (by decide)
    (by decide) (by decide)
    (Project.mk 1 "Proyecto A" 10 "open") (by decide) (by decide)
    (Project.mk 1 "Proyecto A" 10 "open") (by decide)
    (CompanyProfile.mk 10 "ACME") (by decide)
    (User.mk 5 "Tec Uno" "t@x.com") (by decide)
  exact ⟨h.1, h.2.1, h.2.2.2 rfl⟩

/-- createNotification never touches the applications table, whatever its
storage outcome. -/
theorem createNotification_applications (ok : Bool) (st : Store) (u : Nat)
    (ty ti m : String) (r : Option Nat) :
    (createNotification ok st u ty ti m r).applications = st.applications := by
  unfold createNotification; split <;> rfl

/-- The outcome and the applications table of submitApplication do not
depend on the notification-writer or mailer oracles. -/
theorem submitApplication_oracle_indep (cfg : Bool) (no mo np mp : Nat → Bool)
    (st : Store) (req : SubmitRequest) :
    (submitApplication ⟨cfg, no, mo⟩ st req).1 = (submitApplication ⟨cfg, np, mp⟩ st req).1 ∧
    (submitApplication ⟨cfg, no, mo⟩ st req).2.1.applications =
      (submitApplication ⟨cfg, np, mp⟩ st req).2.1.applications := by
  unfold submitApplication
  rcases hq : findProjectInfo (insertApplication st req) req.projectId with _ | ⟨proj, comp⟩ <;>
    rcases ht : findTechnicianInfo (insertApplication st req) req.userId with _ | ⟨u, cv⟩ <;>
      (repeat' split) <;>
        (first
          | (constructor <;> rfl)
          | simp_all [createNotification_applications])

/-- The outcome and the applications table of updateStatus do not depend on
the notification-writer or mailer oracles. -/
theorem updateStatus_oracle_indep (cfg : Bool) (no mo np mp : Nat → Bool)
    (st : Store) (req : StatusRequest) :
    (updateStatus ⟨cfg, no, mo⟩ st req).1 = (updateStatus ⟨cfg, np, mp⟩ st req).1 ∧
    (updateStatus ⟨cfg, no, mo⟩ st req).2.1.applications =
      (updateStatus ⟨cfg, np, mp⟩ st req).2.1.applications := by
  unfold updateStatus
  repeat' split
  all_goals (first
    | (constructor <;> rfl)
    | simp_all [createNotification_applications])

/-- Claim C4: once the primary write has succeeded (the Application insert
in submitApplication, the status update in updateStatus), every
notification-write or mail-send outcome is swallowed: for all oracle
outcomes the HTTP result is the same success result as with all-succeeding
side effects, and the applications table is the same. -/
theorem post_write_failures_swallowed (cfg : Bool) (no mo : Nat → Bool)
    (sta stb : Store) (req : SubmitRequest) (sreq : StatusRequest)
    (i : Nat) (s : String) :
    ((submitApplication ⟨cfg, fun _ => true, fun _ => true⟩ sta req).1 = .created i →
      (submitApplication ⟨cfg, no, mo⟩ sta req).1 = .created i ∧
      (submitApplication ⟨cfg, no, mo⟩ sta req).2.1.applications =
        (submitApplication ⟨cfg, fun _ => true, fun _ => true⟩ sta req).2.1.applications) ∧
    ((updateStatus ⟨cfg, fun _ => true, fun _ => true⟩ stb sreq).1 = .ok s →
      (updateStatus ⟨cfg, no, mo⟩ stb sreq).1 = .ok s ∧
      (updateStatus ⟨cfg, no, mo⟩ stb sreq).2.1.applications =
        (updateStatus ⟨cfg, fun _ => true, fun _ => true⟩ stb sreq).2.1.applications) := by
  constructor
  · intro h
    have hi := submitApplication_oracle_indep cfg no mo (fun _ => true) (fun _ => true) sta req
    exact ⟨hi.1.trans h, hi.2⟩
  · intro h
    have hi := updateStatus_oracle_indep cfg no mo (fun _ => true) (fun _ => true) stb sreq
    exact ⟨hi.1.trans h, hi.2⟩

/-- The accept request of company 10 for application 1. -/
def sreqB : StatusRequest :=
  { userId := 10, userType := "company", applicationId := 1,
    status := "accepted", message := none }

/-- Witness for C4: with every notification insert and every transport send
failing, the submission still returns 201 and the accept still returns 200. -/
theorem post_write_failures_swallowed_witness :
    (submitApplication ⟨false, fun _ => false, fun _ => false⟩ stA reqA).1 = .created 100 ∧
    (updateStatus ⟨false, fun _ => false, fun _ => false⟩ stB sreqB).1 = .ok "accepted" := by
  have h := post_write_failures_swallowed false (fun _ => false) (fun _ => false)
    stA stB reqA sreqB 100 "accepted"
  exact ⟨(h.1 (by decide)).1, (h.2 (by decide)).1⟩

/-- Claim C5: for the application's own technician (role technician, matched
by the ownership read), withdraw succeeds exactly when the current status is
pending — on success the row is set to withdrawn and one Notification is
fired to the technician; on any other current status the call fails with the
invalid-state (not-pending) outcome and the store is unchanged. -/
theorem withdraw_pending_only (env : Env) (st : Store) (req : WithdrawRequest)
    (app : Application) (proj : Project)
    (hfind : findWithdrawJoin st req.applicationId req.userId = some (app, proj))
    (hrole : req.userType = "technician") (hn : env.notifOk 0 = true) :
    (app.status = "pending" →
      (withdraw env st req).1 = .ok ∧
      (withdraw env st req).2.1.applications =
        (updateApplicationStatus st req.applicationId "withdrawn").applications ∧
      (∃ n : Notification,
        (withdraw env st req).2.1.notifications = st.notifications ++ [n] ∧
        n.user_id = req.userId)) ∧
    (app.status ≠ "pending" →
      (withdraw env st req).1 = .notPending ∧ (withdraw env st req).2.1 = st) := by
  constructor
  · intro hp
    refine ⟨?_, ?_, ?_⟩
    · simp [withdraw, hfind, hrole, hp]
    · simp [withdraw, hfind, hrole, hp, createNotification, hn, updateApplicationStatus]
    · refine ⟨Notification.mk (updateApplicationStatus st req.applicationId "withdrawn").nextNotificationId
        req.userId "application_status" (statusNotifTitle "withdrawn")
        (statusNotifMessage proj.title "withdrawn") (some app.project_id), ?_, rfl⟩
      simp [withdraw, hfind, hrole, hp, createNotification, hn, updateApplicationStatus]
  · intro hp
    constructor <;> simp [withdraw, hfind, hrole, hp]

/-- The withdraw request of technician 5 for application 1. -/
def wreqB : WithdrawRequest := { userId := 5, userType := "technician", applicationId := 1 }

/-- stB with application 1 already accepted. -/
def stBAccepted : Store :=
  { stA with applications := [{ appB with status := "accepted" }] }

/-- Witness for C5: in stB (pending) the withdraw succeeds; on the same
application already accepted it fails with the not-pending outcome and
changes nothing. -/
theorem withdraw_pending_only_witness :
    (withdraw envA stB wreqB).1 = .ok ∧
    (withdraw envA stBAccepted wreqB).1 = .notPending ∧
    (withdraw envA stBAccepted wreqB).2.1 = stBAccepted := by
  have h1 := withdraw_pending_only envA stB wreqB appB
    (Project.mk 1 "Proyecto A" 10 "open") (by decide) (by decide) (by decide)
  have h2 := withdraw_pending_only envA stBAccepted wreqB { appB with status := "accepted" }
    (Project.mk 1 "Proyecto A" 10 "open") (by decide) (by decide) (by decide)
  exact ⟨(h1.1 (by decide)).1, (h2.2 (by decide)).1, (h2.2 (by decide)).2⟩

/-- Claim C6: updateStatus on an existing application (the existence join
finds the application, its project and its technician) fails with Forbidden
whenever the requester is not of role company or does not own the project,
and then the store is fully unchanged — no field of any row is modified and
no Notification is created — and no mail is sent. -/
theorem updateStatus_forbidden_no_change (env : Env) (st : Store) (req : StatusRequest)
    (hvalid : validStatusValues.contains req.status = true)
    (app : Application) (proj : Project) (user : User)
    (hfind : findStatusJoin st req.applicationId = some (app, proj, user))
    (hauth : req.userType ≠ "company" ∨ proj.company_id ≠ req.userId) :
    updateStatus env st req = (.forbidden, st, []) := by
  have hv : req.status ∈ validStatusValues := by simpa using hvalid
  rcases hauth with h | h <;> simp [updateStatus, hv, hfind, h]

/-- Witness for C6: company 99 (not the owner of project 1) trying to accept
application 1 is rejected with Forbidden and stB is untouched. -/
theorem updateStatus_forbidden_no_change_witness :
    updateStatus envA stB { sreqB with userId := 99 } = (.forbidden, stB, []) :=
  updateStatus_forbidden_no_change envA stB { sreqB with userId := 99 } (by decide)
    appB (Project.mk 1 "Proyecto A" 10 "open") (User.mk 5 "Tec Uno" "t@x.com")
    (by decide) (Or.inr (by decide))

/-- Counterexample to claim C7: "withdrawn" lies outside {accepted,
rejected}, yet an authorized updateStatus with it does not fail with a
validation error — it succeeds (200) and modifies the application — because
the route validator accepts all four statuses. -/
theorem updateStatus_validator_counterexample :
    ("withdrawn" ∈ (["accepted", "rejected"] : List String) → False) ∧
    (updateStatus envA stB { sreqB with status := "withdrawn" }).1 = .ok "withdrawn" ∧
    (updateStatus envA stB { sreqB with status := "withdrawn" }).2.1.applications ≠
      stB.applications := by
  refine ⟨by decide, by decide, by decide⟩

/-- Claim C7 as amended: the validator of PUT /applications/:id/status
accepts exactly the four values pending, accepted, rejected and withdrawn;
for every request whose status lies outside that set the call fails with a
validation error and the store is unchanged. -/
theorem updateStatus_validator_amended (env : Env) (st : Store) (req : StatusRequest)
    (h : validStatusValues.contains req.status = false) :
    updateStatus env st req = (.badRequest, st, []) := by
  simp only [updateStatus, h, Bool.not_false, if_true]

/-- Witness for the amended C7: a made-up status value is rejected with a
400 validation error and stB is untouched. -/
theorem updateStatus_validator_amended_witness :
    updateStatus envA stB { sreqB with status := "archived" } = (.badRequest, stB, []) :=
  updateStatus_validator_amended envA stB { sreqB with status := "archived" } (by decide)

/-- Claim C8: updateStatus places no restriction on the source status: for
an application in any current status, an authorized company request with any
validator-accepted new status overwrites the row with that status, fires
exactly one Notification to the technician whose title and message are the
templates selected by the new status value, and makes no mail-transport
contact. -/
theorem updateStatus_overwrites_any_status (env : Env) (st : Store) (req : StatusRequest)
    (hvalid : validStatusValues.contains req.status = true)
    (app : Application) (proj : Project) (user : User)
    (hfind : findStatusJoin st req.applicationId = some (app, proj, user))
    (hrole : req.userType = "company") (hown : proj.company_id = req.userId)
    (hn : env.notifOk 0 = true) :
    (updateStatus env st req).1 = .ok req.status ∧
    (updateStatus env st req).2.1.applications =
      (updateApplicationStatus st req.applicationId req.status).applications ∧
    (updateStatus env st req).2.1.notifications = st.notifications ++
      [Notification.mk st.nextNotificationId app.technician_id "application_status"
        (statusNotifTitle req.status) (statusNotifMessage proj.title req.status)
        (some app.project_id)] ∧
    (updateStatus env st req).2.2 = [] := by
  have hv : req.status ∈ validStatusValues := by simpa using hvalid
  refine ⟨?_, ?_, ?_, ?_⟩ <;>
    simp [updateStatus, hv, hfind, hrole, hown, createNotification, hn,
      updateApplicationStatus]

/-- Witness for C8: company 10 sets the already-accepted application 1 back
to "pending"; the overwrite succeeds and the generic fallback template is
used. -/
theorem updateStatus_overwrites_any_status_witness :
    (updateStatus envA stBAccepted { sreqB with status := "pending" }).1 = .ok "pending" ∧
    (updateStatus envA stBAccepted { sreqB with status := "pending" }).2.1.notifications =
      stBAccepted.notifications ++
        [Notification.mk 200 5 "application_status" (statusNotifTitle "pending")
          (statusNotifMessage "Proyecto A" "pending") (some 1)] := by
  have h := updateStatus_overwrites_any_status envA stBAccepted
    { sreqB with status := "pending" } (by decide)
    { appB with status := "accepted" } (Project.mk 1 "Proyecto A" 10 "open")
    (User.mk 5 "Tec Uno" "t@x.com") (by decide) (by decide) (by decide) (by decide)
  exact ⟨h.1, h.2.2.1⟩

/-- Counterexample to claim C9: a requester whose id equals the
application's technician id but whose role is not technician receives
Forbidden (403) from withdraw, not NotFound — the ownership-filtered read
succeeds and then the role check fires — so the handler can answer 403,
contrary to the claim's "never Forbidden". -/
theorem withdraw_role_forbidden_counterexample :
    ("company" = "technician" → False) ∧
    (withdraw envA stB { wreqB with userType := "company" }).1 = .forbidden ∧
    (withdraw envA stB { wreqB with userType := "company" }).1 ≠ .notFound := by
  refine ⟨by decide, by decide, by decide⟩

/-- Claim C9 as amended: withdraw answers NotFound whenever the
ownership-filtered read finds no row — any requester whose id differs from
the application's technician id, or an application id that does not exist
(or whose project row is missing) — so existence is hidden from other
users; only a requester whose id equals the application's technician id but
whose role is not technician gets Forbidden, the ownership filter running
before the role check. -/
theorem withdraw_hidden_amended (env : Env) (st : Store) (req : WithdrawRequest) :
    (findWithdrawJoin st req.applicationId req.userId = none →
      withdraw env st req = (.notFound, st, [])) ∧
    (∀ app proj, findWithdrawJoin st req.applicationId req.userId = some (app, proj) →
      req.userType ≠ "technician" → withdraw env st req = (.forbidden, st, [])) := by
  constructor
  · intro h; simp [withdraw, h]
  · intro app proj h hrole; simp [withdraw, h, hrole]

/-- Witness for the amended C9: a stranger (id 99) withdrawing application 1
gets NotFound; the owner's id with a company role gets Forbidden. -/
theorem withdraw_hidden_amended_witness :
    withdraw envA stB { wreqB with userId := 99 } = (.notFound, stB, []) ∧
    withdraw envA stB { wreqB with userType := "company" } = (.forbidden, stB, []) :=
  ⟨(withdraw_hidden_amended envA stB { wreqB with userId := 99 }).1 (by decide),
   (withdraw_hidden_amended envA stB { wreqB with userType := "company" }).2
     appB (Project.mk 1 "Proyecto A" 10 "open") (by decide) (by decide)⟩

/-- Claim C10: when the mail credentials are absent at startup
(EMAIL_USER or EMAIL_PASS unset), both emailService send operations return
the not-configured failure as a value — never raising — and make no
transport contact, whatever the transport outcome oracle says. -/
theorem mailer_unconfigured_short_circuit (emailUser emailPass : Option String)
    (h : emailUser = none ∨ emailPass = none) (sendOk : Bool)
    (e n t : String) (d : JobApplicationEmailData) :
    sendJobApplicationEmail (validateEmailConfig emailUser emailPass) sendOk d =
      ({ success := false, error := some "Email no configurado" }, []) ∧
    sendApplicationConfirmationEmail (validateEmailConfig emailUser emailPass) sendOk e n t =
      ({ success := false, error := some "Email no configurado" }, []) := by
  have hc : validateEmailConfig emailUser emailPass = false := by
    rcases h with h | h <;> simp [validateEmailConfig, envFalsy, h]
  rw [hc]
  exact ⟨rfl, rfl⟩

/-- Witness for C10: with no EMAIL_PASS, the operations notice and the
confirmation both short-circuit to the not-configured value. -/
theorem mailer_unconfigured_short_circuit_witness :
    sendJobApplicationEmail (validateEmailConfig (some "u@x.com") none) true
        (JobApplicationEmailData.mk "T" "t@x.com" "P" "C" "cl" none none) =
      ({ success := false, error := some "Email no configurado" }, []) ∧
    sendApplicationConfirmationEmail (validateEmailConfig (some "u@x.com") none) true
        "t@x.com" "T" "P" =
      ({ success := false, error := some "Email no configurado" }, []) :=
  mailer_unconfigured_short_circuit (some "u@x.com") none (Or.inr rfl) true
    "t@x.com" "T" "P" (JobApplicationEmailData.mk "T" "t@x.com" "P" "C" "cl" none none)
